import Mathlib

/-!
Shallow embedding of the Hephaestus domain/certificate lifecycle orchestrator
(Go sources under internal/services, internal/api/routes, internal/clients).

Repository calls, ACME issuance, filesystem writes and transaction commits are
non-deterministic from the point of view of the orchestrator, so each workflow
takes an oracle record holding the outcome of every external call it can make,
and returns its Go result together with the transactional writes it attempted
and the writes that were actually committed (empty when the transaction was
rolled back).  Error values keep the constant prefix of the Go format string;
the wrapped cause is appended where the Go code wraps the failing call
directly, and elided where it does not.  Go map iteration order is modelled as
insertion order, and time.Time instants are modelled as integer nanoseconds.
-/

namespace Hephaestus

/-- Instants of Go time.Time, as integer nanoseconds since the epoch. -/
abbrev Time := Int

/-- Nanoseconds in one hour: Go time.Hour. -/
def nsPerHour : Int := 3600 * 1000000000

/-- The renewal threshold duration: 30 * 24 * time.Hour (services/certs renewal sweep). -/
def renewalWindow : Int := 30 * 24 * nsPerHour

/-- models.Entity: a table name plus typed attribute maps, as built by
services.NewEntity.  The four association lists mirror the four typed maps of
the Go struct; NewEntity only ever receives string, int, time.Time and bool
values at the call sites modelled here, so the fatal default branch of
NewEntity is unreachable in this embedding. -/
structure Entity where
  entityName : String
  stringParams : List (String × String) := []
  intParams : List (String × Int) := []
  timeParams : List (String × Time) := []
  boolParams : List (String × Bool) := []
deriving DecidableEq

/-- Lookup of a string attribute of an Entity. -/
def Entity.getString (e : Entity) (k : String) : Option String :=
  (e.stringParams.find? (fun p => p.1 = k)).map Prod.snd

/-- Lookup of a time attribute of an Entity. -/
def Entity.getTime (e : Entity) (k : String) : Option Time :=
  (e.timeParams.find? (fun p => p.1 = k)).map Prod.snd

/-- A write request issued to the repository inside a transaction: an insert
carries the entity (the row id is generated by the repository), an update
carries the target row id. -/
inductive WriteReq where
  | insertReq (e : Entity)
  | updateReq (id : String) (e : Entity)
deriving DecidableEq

/-- A transactional write as committed: inserts carry the repository-generated
row id. -/
inductive TxOp where
  | insertOp (id : String) (e : Entity)
  | updateOp (id : String) (e : Entity)
deriving DecidableEq

/-- The table a committed write targets. -/
def TxOp.table : TxOp → String
  | .insertOp _ e => e.entityName
  | .updateOp _ e => e.entityName

/-- Result of a Go function returning error: normal return value, non-nil
error, or a runtime panic. -/
inductive RunResult (α : Type) where
  | ok (a : α)
  | err (msg : String)
  | panicked
deriving DecidableEq

/-- clients.Client: only the registry name is relevant to selection. -/
structure Client where
  name : String
deriving DecidableEq

/-- Result of Service.SelectClientByName as observed by the caller:
a handle, the not-found error (with a nil handle), or a panic (indexing
client[0] of an empty registry for the sentinel name). -/
inductive SelectResult where
  | found (c : Client)
  | notFound
  | panicked
deriving DecidableEq

/-- Service.SelectClientByName (service.go): the sentinel name "no" resolves
to the first registered client (panicking when the registry is empty);
any other name is looked up by exact equality on Client.Name. -/
def SelectClientByName (clients : List Client) (name : String) : SelectResult :=
  if name = "no" then
    match clients with
    | [] => .panicked
    | c :: _ => .found c
  else
    match clients.find? (fun c => c.name = name) with
    | some c => .found c
    | none => .notFound

/-- models.CertificateData: the validity window returned by issuance (the PEM
payloads are irrelevant to the orchestration logic). -/
structure CertData where
  validFrom : Time
  validTo : Time
deriving DecidableEq

/-- models.CertificatePaths as returned by Client.SaveCertificateFiles. -/
structure CertificatePaths where
  cert : String
  key : String
  chain : String
deriving DecidableEq

/-- Go filepath.Join of two already-clean path segments without trailing
separators: joining the empty string on the right yields the left segment
unchanged (filepath.Join(a, "") = Clean(a)). -/
def filepathJoin (a b : String) : String :=
  if b = "" then a else if a = "" then b else a ++ "/" ++ b

/-- A path is the given root itself or lies strictly inside it. -/
def underDir (root p : String) : Prop :=
  p = root ∨ ∃ s, p = root ++ "/" ++ s

/-- Client.DeleteCertificateFiles (client.go): the directory handed to
os.RemoveAll, namely filepath.Join(cfg.Certs.StorageDir, domain). -/
def deleteCertFilesTarget (storageDir domain : String) : String :=
  filepathJoin storageDir domain

/-- Client.DeleteCertificateFiles: the subtree actually removed — none when
the os.Stat existence check fails, otherwise the join target. -/
def deleteCertFilesRemoved (storageDir domain : String) (dirExists : Bool) : Option String :=
  if dirExists then some (deleteCertFilesTarget storageDir domain) else none

/-- The ACME account key path created by clients.NewClient:
filepath.Join(cfg.Certs.StorageDir, "acme_user.key"). -/
def acmeUserKeyPath (storageDir : String) : String :=
  filepathJoin storageDir "acme_user.key"

/-- The events-table entity built by Service.writeEvent. -/
def eventEntity (domainID eventType message createdBy : String) : Entity :=
  { entityName := "events"
    stringParams := [("domain_id", domainID), ("event_type", eventType),
                     ("message", message), ("created_by", createdBy)] }

/-- Pagination fields of models.GetDomainsResp as computed by
Service.GetDomains (domains.go).  The claim under scrutiny quantifies over
totalElements >= 0, page >= 1, pageSize >= 1, where Go signed-int arithmetic
agrees with Nat arithmetic, including the division. -/
structure PageInfo where
  totalPages : Nat
  page : Nat
  pageSize : Nat
  totalElements : Nat
  hasNext : Bool
  hasPrev : Bool
  nextPage : Nat
  prevPage : Nat
deriving DecidableEq

/-- Service.GetDomains pagination arithmetic, transcribed from domains.go:
totalPages := (totalElements + filters.Page - 1) / filters.PageSize. -/
def getDomainsPageInfo (totalElements page pageSize : Nat) : PageInfo :=
  let totalPages := (totalElements + page - 1) / pageSize
  let hasNext := page < totalPages
  let hasPrev := 1 < page
  { totalPages := totalPages
    page := page
    pageSize := pageSize
    totalElements := totalElements
    hasNext := hasNext
    hasPrev := hasPrev
    nextPage := if hasNext then page + 1 else 0
    prevPage := if hasPrev then page - 1 else 0 }

/-- The Nat ceiling of totalElements / pageSize, the intended totalPages. -/
def ceilDivPages (totalElements pageSize : Nat) : Nat :=
  (totalElements + pageSize - 1) / pageSize

/-- models.CreateDomainReq. -/
structure CreateDomainReq where
  createdBy : String
  domain : String
  altDomains : List String
  verificationMethod : String
  autoRenew : Bool
  nginxContainerName : String
  dnsProvider : String

/-- Outcomes of the external calls Service.CreateDomain can make, one field
per call site: repository queries, issuance, artifact persistence, the
transaction, and the best-effort event insert (at most one best-effort event
is written per run). -/
structure CreateOracle where
  existsCheck : Except String Bool
  issuance : Except String CertData
  saveFiles : Except String CertificatePaths
  beginTx : Except String Unit
  insertDomain : Except String String
  insertAlt : String → Except String String
  insertCert : Except String String
  updateStatus : Except String Unit
  commitTx : Except String Unit
  eventInsert : Except String String

/-- Observable outcome of one Service.CreateDomain run: the returned
(domainID, error) pair, whether issuance and artifact persistence were
invoked, the transactional writes that became visible (empty on rollback),
and the best-effort event writes attempted via safeWriteEvent together with
the ones whose insert succeeded. -/
structure CreateOutput where
  result : RunResult String
  issuanceCalled : Bool
  saveFilesCalled : Bool
  txWritesAttempted : List WriteReq
  committed : List TxOp
  eventWritesAttempted : List Entity
  eventsRecorded : List Entity
deriving DecidableEq

/-- The domains-table insert entity built by CreateDomain. -/
def createDomainEntity (req : CreateDomainReq) : Entity :=
  { entityName := "domains"
    stringParams := [("domain_name", req.domain), ("dns_provider", req.dnsProvider),
                     ("status", "pending"), ("verification_method", req.verificationMethod),
                     ("nginx_container_name", req.nginxContainerName),
                     ("created_by", req.createdBy)]
    boolParams := [("auto_renew", req.autoRenew)] }

/-- The alternative_domains insert entity built by CreateDomain for one SAN. -/
def createAltEntity (domainID sub createdBy : String) : Entity :=
  { entityName := "alternative_domains"
    stringParams := [("domain_id", domainID), ("domain_name", sub), ("created_by", createdBy)] }

/-- The certificates insert entity built by CreateDomain. -/
def createCertEntity (domainID createdBy : String) (p : CertificatePaths) (cd : CertData) : Entity :=
  { entityName := "certificates"
    stringParams := [("domain_id", domainID), ("issuer", "Lets Encrypt"),
                     ("cert_path", p.cert), ("key_path", p.key), ("chain_path", p.chain),
                     ("created_by", createdBy)]
    timeParams := [("valid_from", cd.validFrom), ("valid_to", cd.validTo)] }

/-- The domains status=active update entity built by CreateDomain. -/
def createActiveEntity (updatedBy : String) : Entity :=
  { entityName := "domains"
    stringParams := [("status", "active"), ("updated_by", updatedBy)] }

/-- The alternative-domain insert loop of CreateDomain: inserts each SAN in
order, aborting on the first repository failure; on success returns the
committed-shape ops in order. -/
def insertAlts (o : CreateOracle) (domainID createdBy : String) :
    List String → Except String (List TxOp)
  | [] => .ok []
  | sub :: rest =>
    match o.insertAlt sub with
    | .error e => .error ("insert alt domain " ++ sub ++ ": " ++ e)
    | .ok subId =>
      match insertAlts o domainID createdBy rest with
      | .error e => .error e
      | .ok ops => .ok (.insertOp subId (createAltEntity domainID sub createdBy) :: ops)

/-- The write requests issued by the alternative-domain insert loop, in call
order, including the one that failed (when one failed). -/
def insertAltsAttempted (o : CreateOracle) (domainID createdBy : String) :
    List String → List WriteReq
  | [] => []
  | sub :: rest =>
    match o.insertAlt sub with
    | .error _ => [.insertReq (createAltEntity domainID sub createdBy)]
    | .ok _ => .insertReq (createAltEntity domainID sub createdBy)
        :: insertAltsAttempted o domainID createdBy rest

/-- The transactional phase of CreateDomain, from the domain insert through
the status update: returns the domainID in scope at exit (the named return
variable read by the deferred event writer, empty until the domain insert
succeeds) and either the buffered ops in order or the wrapped error. -/
def createTxPhase (o : CreateOracle) (req : CreateDomainReq)
    (cd : CertData) (p : CertificatePaths) : String × Except String (List TxOp) :=
  match o.insertDomain with
  | .error e => ("", .error ("insert domain: " ++ e))
  | .ok domainID =>
    match insertAlts o domainID req.createdBy req.altDomains with
    | .error e => (domainID, .error e)
    | .ok altOps =>
      match o.insertCert with
      | .error e => (domainID, .error ("insert certificate: " ++ e))
      | .ok certId =>
        match o.updateStatus with
        | .error e => (domainID, .error ("update domain status: " ++ e))
        | .ok _ =>
          (domainID, .ok (.insertOp domainID (createDomainEntity req)
            :: altOps
            ++ [.insertOp certId (createCertEntity domainID req.createdBy p cd),
                .updateOp domainID (createActiveEntity req.createdBy)]))

/-- The write requests issued during the transactional phase of CreateDomain,
in call order, including the failing one. -/
def createTxPhaseAttempted (o : CreateOracle) (req : CreateDomainReq)
    (cd : CertData) (p : CertificatePaths) : List WriteReq :=
  match o.insertDomain with
  | .error _ => [.insertReq (createDomainEntity req)]
  | .ok domainID =>
    .insertReq (createDomainEntity req) ::
    insertAltsAttempted o domainID req.createdBy req.altDomains ++
    (match insertAlts o domainID req.createdBy req.altDomains with
     | .error _ => []
     | .ok _ =>
       .insertReq (createCertEntity domainID req.createdBy p cd) ::
       (match o.insertCert with
        | .error _ => []
        | .ok _ => [.updateReq domainID (createActiveEntity req.createdBy)]))

/-- One best-effort safeWriteEvent call: the attempted entity, and the
recorded list depending on the insert outcome.  The insert failure is only
logged and never alters the surrounding result. -/
def safeEvent (o : CreateOracle) (ev : Entity) : List Entity × List Entity :=
  ([ev], match o.eventInsert with | .ok _ => [ev] | .error _ => [])

/-- Service.CreateDomain (domains.go), transcribed step by step: duplicate
check, client selection, issuance, artifact persistence, transaction with
domain/SAN/certificate inserts and the activation update, commit, and the
best-effort events on the failure and success paths. -/
def CreateDomain (o : CreateOracle) (clients : List Client) (req : CreateDomainReq) :
    CreateOutput :=
  match o.existsCheck with
  | .error e =>
    { result := .err ("check domain exists: " ++ e), issuanceCalled := false,
      saveFilesCalled := false, txWritesAttempted := [], committed := [],
      eventWritesAttempted := [], eventsRecorded := [] }
  | .ok exists_ =>
    if exists_ then
      { result := .err "domain already exists", issuanceCalled := false,
        saveFilesCalled := false, txWritesAttempted := [], committed := [],
        eventWritesAttempted := [], eventsRecorded := [] }
    else
      match SelectClientByName clients req.dnsProvider with
      | .panicked =>
        { result := .panicked, issuanceCalled := false, saveFilesCalled := false,
          txWritesAttempted := [], committed := [],
          eventWritesAttempted := [], eventsRecorded := [] }
      | .notFound =>
        { result := .err "select DNS client: client not found", issuanceCalled := false,
          saveFilesCalled := false, txWritesAttempted := [], committed := [],
          eventWritesAttempted := [], eventsRecorded := [] }
      | .found _ =>
        match o.issuance with
        | .error e =>
          let evs := safeEvent o (eventEntity "" "failed"
            ("Certificate creation failed: " ++ e) req.createdBy)
          { result := .err ("certificate creation failed: " ++ e), issuanceCalled := true,
            saveFilesCalled := false, txWritesAttempted := [], committed := [],
            eventWritesAttempted := evs.1, eventsRecorded := evs.2 }
        | .ok cd =>
          match o.saveFiles with
          | .error e =>
            let evs := safeEvent o (eventEntity "" "failed"
              ("Saving certificate files failed: " ++ e) req.createdBy)
            { result := .err ("save certificate files: " ++ e), issuanceCalled := true,
              saveFilesCalled := true, txWritesAttempted := [], committed := [],
              eventWritesAttempted := evs.1, eventsRecorded := evs.2 }
          | .ok p =>
            match o.beginTx with
            | .error e =>
              { result := .err ("begin tx: " ++ e), issuanceCalled := true,
                saveFilesCalled := true, txWritesAttempted := [], committed := [],
                eventWritesAttempted := [], eventsRecorded := [] }
            | .ok _ =>
              let attempted := createTxPhaseAttempted o req cd p
              match createTxPhase o req cd p with
              | (domainID, .error e) =>
                let evs := safeEvent o (eventEntity domainID "failed"
                  ("Domain creation failed: " ++ e) req.createdBy)
                { result := .err e, issuanceCalled := true, saveFilesCalled := true,
                  txWritesAttempted := attempted, committed := [],
                  eventWritesAttempted := evs.1, eventsRecorded := evs.2 }
              | (domainID, .ok ops) =>
                match o.commitTx with
                | .error e =>
                  let evs := safeEvent o (eventEntity domainID "failed"
                    ("Domain creation failed: commit tx: " ++ e) req.createdBy)
                  { result := .err ("commit tx: " ++ e), issuanceCalled := true,
                    saveFilesCalled := true, txWritesAttempted := attempted, committed := [],
                    eventWritesAttempted := evs.1, eventsRecorded := evs.2 }
                | .ok _ =>
                  let evs := safeEvent o (eventEntity domainID "created"
                    "Domain and certificate created successfully" req.createdBy)
                  { result := .ok domainID, issuanceCalled := true, saveFilesCalled := true,
                    txWritesAttempted := attempted, committed := ops,
                    eventWritesAttempted := evs.1, eventsRecorded := evs.2 }

/-- models.DeleteDomainReq. -/
structure DeleteDomainReq where
  domainID : String
  domainName : String
  userID : String

/-- The certificates row returned by repository.GetCertificatesByDomain; an
empty id means no certificate row exists for the domain. -/
structure CertRow where
  id : String
deriving DecidableEq

/-- Outcomes of the external calls Service.DeleteDomain can make. -/
structure DeleteOracle where
  beginTx : Except String Unit
  getIDByName : Except String String
  getSubDomains : Except String (List String)
  updateDomains : Except String Unit
  getCerts : Except String CertRow
  updateCert : Except String Unit
  eventInsert : Except String String
  commitTx : Except String Unit

/-- Observable outcome of one Service.DeleteDomain run: the returned error,
the committed transactional writes (empty on rollback), and the argument the
post-commit goroutine passes to Client.DeleteCertificateFiles (none when the
goroutine is not reached, or when selecting the sentinel client panicked on
an empty registry). -/
structure DeleteOutput where
  result : RunResult Unit
  committed : List TxOp
  cleanupArg : Option String
deriving DecidableEq

/-- The domains soft-delete update entity built by DeleteDomain. -/
def deletedDomainEntity (userID : String) (now : Time) : Entity :=
  { entityName := "domains"
    stringParams := [("status", "deleted"), ("deleted_by", userID), ("updated_by", userID)]
    timeParams := [("deleted_at", now)] }

/-- The alternative_domains soft-delete update entity built by DeleteDomain. -/
def deletedAltEntity (userID : String) (now : Time) : Entity :=
  { entityName := "alternative_domains"
    stringParams := [("status", "deleted"), ("deleted_by", userID), ("updated_by", userID)]
    timeParams := [("deleted_at", now)] }

/-- The certificates update entity built by DeleteDomain: deleted_by,
updated_by and deleted_at only — the Go call site passes no status key. -/
def deletedCertEntity (userID : String) (now : Time) : Entity :=
  { entityName := "certificates"
    stringParams := [("deleted_by", userID), ("updated_by", userID)]
    timeParams := [("deleted_at", now)] }

/-- Insertion into the Go map updateDomains, keyed by row id: a later entry
with an existing key replaces the earlier one. -/
def mapInsert (m : List (String × Entity)) (k : String) (v : Entity) :
    List (String × Entity) :=
  if m.any (fun p => p.1 = k) then
    m.map (fun p => if p.1 = k then (k, v) else p)
  else
    m ++ [(k, v)]

/-- The updateDomains map built by DeleteDomain: the main domain entry, then
one entry per fetched subdomain id.  Go iterates the map in unspecified
order; this embedding determinizes it to insertion order. -/
def deleteUpdateMap (domainID userID : String) (now : Time) (subs : List String) :
    List (String × Entity) :=
  subs.foldl (fun m id => mapInsert m id (deletedAltEntity userID now))
    [(domainID, deletedDomainEntity userID now)]

/-- The domain-id resolution step of DeleteDomain: the request id when no
name is given, otherwise the in-transaction lookup by name, with the empty
id rejected as a missing domain. -/
def deleteResolveID (o : DeleteOracle) (req : DeleteDomainReq) : Except String String :=
  if req.domainName ≠ "" then
    match o.getIDByName with
    | .error e => .error ("error while getting domain id: " ++ e)
    | .ok id => if id = "" then .error "domain doesnt exist" else .ok id
  else
    .ok req.domainID

/-- Service.DeleteDomain (domains.go), transcribed step by step: transaction
begin, id resolution, subdomain listing, the batched soft-delete updates, the
certificate update when a certificate row exists, the deleted event insert
inside the same transaction, commit, and the post-commit asynchronous file
cleanup that always receives filters.DomainName. -/
def DeleteDomain (clients : List Client) (o : DeleteOracle) (now : Time)
    (req : DeleteDomainReq) : DeleteOutput :=
  match o.beginTx with
  | .error e => { result := .err ("failed to begin transaction: " ++ e),
                  committed := [], cleanupArg := none }
  | .ok _ =>
    match deleteResolveID o req with
    | .error e => { result := .err e, committed := [], cleanupArg := none }
    | .ok domainID =>
      match o.getSubDomains with
      | .error e => { result := .err ("error getting subdomains: " ++ e),
                      committed := [], cleanupArg := none }
      | .ok subs =>
        let batch := deleteUpdateMap domainID req.userID now subs
        match o.updateDomains with
        | .error e => { result := .err ("error updating domain statuses: " ++ e),
                        committed := [], cleanupArg := none }
        | .ok _ =>
          match o.getCerts with
          | .error e => { result := .err ("error fetching certificates: " ++ e),
                          committed := [], cleanupArg := none }
          | .ok cert =>
            let certStep : Except String Unit :=
              if cert.id ≠ "" then o.updateCert else .ok ()
            match certStep with
            | .error e => { result := .err ("error updating certificate: " ++ e),
                            committed := [], cleanupArg := none }
            | .ok _ =>
              match o.eventInsert with
              | .error e =>
                { result := .err ("error inserting event: failed to write event: " ++ e),
                  committed := [], cleanupArg := none }
              | .ok evId =>
                match o.commitTx with
                | .error e => { result := .err ("commit error: " ++ e),
                                committed := [], cleanupArg := none }
                | .ok _ =>
                  { result := .ok ()
                    committed :=
                      batch.map (fun p => TxOp.updateOp p.1 p.2)
                      ++ (if cert.id ≠ "" then
                            [TxOp.updateOp cert.id (deletedCertEntity req.userID now)]
                          else [])
                      ++ [TxOp.insertOp evId (eventEntity domainID "deleted"
                            ("Domain " ++ req.domainName ++ " and its certificates deleted")
                            req.userID)]
                    cleanupArg := if clients.isEmpty then none else some req.domainName }

/-- models.DomainsDTO details relevant to renewal. -/
structure DomainDetails where
  status : String
  autoRenew : Bool
  certValidTo : Time
  dnsProvider : String
  nginxContainerName : String

/-- models.DomainsDTO as consumed by the renewal sweep. -/
structure DomainsDTO where
  id : String
  domainName : String
  sub : List String
  details : DomainDetails

/-- Outcomes of the external calls Service.RenewDomainCertificate can make. -/
structure RenewOracle where
  beginTx : Except String Unit
  issuance : Except String CertData
  saveFiles : Except String CertificatePaths
  updateFailedStatus : Except String Unit
  failedEventInsert : Except String String
  updateCert : Except String Unit
  updateDomain : Except String Unit
  renewedEventInsert : Except String String
  commitTx : Except String Unit
  nginxReload : Except String Unit

/-- Observable outcome of one Service.RenewDomainCertificate run: the Go
result (including the nil-client panic), whether issuance and artifact
persistence were invoked, the write requests issued to the open transaction,
and the writes committed (empty whenever the deferred rollback fires, which
happens on every error return and on the panic, since the function-scope err
is non-nil there). -/
structure RenewOutput where
  result : RunResult Unit
  issuanceCalled : Bool
  saveFilesCalled : Bool
  txWritesAttempted : List WriteReq
  committed : List TxOp
deriving DecidableEq

/-- The domains status=update_failed update entity built on the renewal
failure paths. -/
def renewFailedEntity : Entity :=
  { entityName := "domains"
    stringParams := [("status", "update_failed"), ("updated_by", "system-renewal")] }

/-- The domains status=active update entity built on the renewal success
path. -/
def renewActiveEntity : Entity :=
  { entityName := "domains"
    stringParams := [("status", "active"), ("updated_by", "system-renewal")] }

/-- The certificates update entity built on the renewal success path (keyed
by the domain id at the Go call site). -/
def renewCertEntity (p : CertificatePaths) (cd : CertData) (now : Time) : Entity :=
  { entityName := "certificates"
    stringParams := [("cert_path", p.cert), ("key_path", p.key), ("chain_path", p.chain),
                     ("updated_by", "system-renewal")]
    timeParams := [("valid_from", cd.validFrom), ("valid_to", cd.validTo),
                   ("updated_at", now)] }

/-- Service.RenewDomainCertificate (certs renewal file), transcribed step by
step.  The error returned by SelectClientByName is never checked, so an
unresolvable provider name leaves the client handle nil and the issuance call
dereferences it: this is modelled as the panicked result.  On the issuance
failure path the status=update_failed update and the failed event are issued
to the open transaction and the function then returns a non-nil error, so the
deferred rollback discards both and nothing is committed. -/
def RenewDomainCertificate (clients : List Client) (o : RenewOracle) (now : Time)
    (d : DomainsDTO) : RenewOutput :=
  match o.beginTx with
  | .error e => { result := .err ("failed to begin tx: " ++ e), issuanceCalled := false,
                  saveFilesCalled := false, txWritesAttempted := [], committed := [] }
  | .ok _ =>
    match SelectClientByName clients d.details.dnsProvider with
    | .notFound =>
      { result := .panicked, issuanceCalled := false, saveFilesCalled := false,
        txWritesAttempted := [], committed := [] }
    | .panicked =>
      { result := .panicked, issuanceCalled := false, saveFilesCalled := false,
        txWritesAttempted := [], committed := [] }
    | .found _ =>
      match o.issuance with
      | .error _ =>
        { result := .err "failed to create new certificate", issuanceCalled := true,
          saveFilesCalled := false,
          txWritesAttempted := [.updateReq d.id renewFailedEntity,
            .insertReq (eventEntity d.id "failed" "Certificate issuance failed"
              "system-renewal")],
          committed := [] }
      | .ok cd =>
        match o.saveFiles with
        | .error e =>
          { result := .err ("failed to save cert files: " ++ e), issuanceCalled := true,
            saveFilesCalled := true,
            txWritesAttempted := [.updateReq d.id renewFailedEntity], committed := [] }
        | .ok p =>
          match o.updateCert with
          | .error e =>
            { result := .err ("failed to update certificate: " ++ e), issuanceCalled := true,
              saveFilesCalled := true,
              txWritesAttempted := [.updateReq d.id (renewCertEntity p cd now)],
              committed := [] }
          | .ok _ =>
            match o.updateDomain with
            | .error e =>
              { result := .err ("failed to update domain status: " ++ e),
                issuanceCalled := true, saveFilesCalled := true,
                txWritesAttempted := [.updateReq d.id (renewCertEntity p cd now),
                  .updateReq d.id renewActiveEntity],
                committed := [] }
            | .ok _ =>
              let renewedEv := eventEntity d.id "renewed"
                ("Certificate for " ++ d.domainName ++ " renewed") "system-renewal"
              let attempted : List WriteReq :=
                [.updateReq d.id (renewCertEntity p cd now),
                 .updateReq d.id renewActiveEntity, .insertReq renewedEv]
              match o.renewedEventInsert with
              | .error e =>
                { result := .err ("failed to insert event: failed to write event: " ++ e),
                  issuanceCalled := true, saveFilesCalled := true,
                  txWritesAttempted := attempted, committed := [] }
              | .ok evId =>
                let ops : List TxOp :=
                  [.updateOp d.id (renewCertEntity p cd now),
                   .updateOp d.id renewActiveEntity, .insertOp evId renewedEv]
                match o.commitTx with
                | .error e =>
                  { result := .err ("failed commit: " ++ e), issuanceCalled := true,
                    saveFilesCalled := true, txWritesAttempted := attempted,
                    committed := [] }
                | .ok _ =>
                  match (if d.details.nginxContainerName = "" then Except.ok ()
                         else o.nginxReload) with
                  | .error e =>
                    { result := .err ("certificate renewed but nginx reload failed: " ++ e),
                      issuanceCalled := true, saveFilesCalled := true,
                      txWritesAttempted := attempted, committed := ops }
                  | .ok _ =>
                    { result := .ok (), issuanceCalled := true, saveFilesCalled := true,
                      txWritesAttempted := attempted, committed := ops }

/-- The action the renewal sweep takes for one listed domain: skip, or run
RenewDomainCertificate. -/
inductive SweepStep where
  | skipped
  | ran (out : RenewOutput)
deriving DecidableEq

/-- Whether the per-domain sweep step invoked certificate issuance. -/
def SweepStep.issuanceCalled : SweepStep → Bool
  | .skipped => false
  | .ran out => out.issuanceCalled

/-- The database write requests the per-domain sweep step issued. -/
def SweepStep.dbWritesAttempted : SweepStep → List WriteReq
  | .skipped => []
  | .ran out => out.txWritesAttempted

/-- The database writes the per-domain sweep step committed. -/
def SweepStep.dbWritesCommitted : SweepStep → List TxOp
  | .skipped => []
  | .ran out => out.committed

/-- The per-domain body of Service.RenewExpiringCertificates: skip deleted or
non-auto-renew domains, skip domains whose certificate expiry is more than 30
days away (now.Before(certValidTo.Add(-30 * 24 * time.Hour))), and invoke
RenewDomainCertificate otherwise. -/
def renewSweepStep (clients : List Client) (o : RenewOracle) (now : Time)
    (d : DomainsDTO) : SweepStep :=
  if d.details.status = "deleted" || !d.details.autoRenew then .skipped
  else if now < d.details.certValidTo - renewalWindow then .skipped
  else .ran (RenewDomainCertificate clients o now d)

/-- A row of the domains table, as much of it as duplicate detection and the
create workflow touch. -/
structure DomainRow where
  id : String
  name : String
  status : String
deriving DecidableEq

/-- Modelled from the spec: repository.IsDomainExists is not under src (only
its caller is); per the spec, a domain name is rejected exactly when a
non-deleted domain with the same name exists, so the check is existence of a
row with that name whose status is not deleted. -/
def IsDomainExists (db : List DomainRow) (name : String) : Bool :=
  db.any (fun r => r.name = name && r.status ≠ "deleted")

/-- Effect of one committed write on the domains table: inserts append a row
with the inserted name and status, updates rewrite the status of the row with
the matching id; writes against other tables leave the table unchanged. -/
def applyTxOpDomains (db : List DomainRow) : TxOp → List DomainRow
  | .insertOp id e =>
    if e.entityName = "domains" then
      db ++ [{ id := id, name := (e.getString "domain_name").getD "",
               status := (e.getString "status").getD "" }]
    else db
  | .updateOp id e =>
    if e.entityName = "domains" then
      db.map (fun r => if r.id = id then
        { r with status := (e.getString "status").getD r.status } else r)
    else db

/-- CreateDomain against an explicit domains table: the duplicate check is
answered by the spec-modelled IsDomainExists over the table, every other
external call by the oracle, and the committed writes are applied to the
table. -/
def CreateDomainSt (o : CreateOracle) (clients : List Client)
    (db : List DomainRow) (req : CreateDomainReq) : CreateOutput × List DomainRow :=
  let out := CreateDomain { o with existsCheck := .ok (IsDomainExists db req.domain) }
    clients req
  (out, out.committed.foldl applyTxOpDomains db)

/-! Concrete fixtures used to evaluate the workflows at specific inputs. -/

/-- A two-provider client registry. -/
def clientsFix : List Client := [{ name := "cloudflare" }, { name := "hetzner" }]

/-- A concrete certificate validity window. -/
def certDataFix : CertData := { validFrom := 100, validTo := 200 }

/-- Concrete artifact paths. -/
def certPathsFix : CertificatePaths :=
  { cert := "cert.pem", key := "privkey.pem", chain := "chain.pem" }

/-- A renewal-eligible domain whose provider is registered. -/
def domainFix : DomainsDTO :=
  { id := "d1", domainName := "example.com", sub := []
    details := { status := "active", autoRenew := true, certValidTo := 200,
                 dnsProvider := "cloudflare", nginxContainerName := "" } }

/-- A soft-deleted domain, used to exercise the sweep skip. -/
def domainDeletedFix : DomainsDTO :=
  { id := "d2", domainName := "old.example.com", sub := []
    details := { status := "deleted", autoRenew := true, certValidTo := 200,
                 dnsProvider := "cloudflare", nginxContainerName := "" } }

/-- A renewal-eligible domain whose configured provider is not registered. -/
def domainBadProviderFix : DomainsDTO :=
  { id := "d3", domainName := "bad.example.com", sub := []
    details := { status := "active", autoRenew := true, certValidTo := 200,
                 dnsProvider := "route53", nginxContainerName := "" } }

/-- A renewal oracle where every external call succeeds. -/
def renewOracleAllOk : RenewOracle :=
  { beginTx := .ok (), issuance := .ok certDataFix, saveFiles := .ok certPathsFix,
    updateFailedStatus := .ok (), failedEventInsert := .ok "e1",
    updateCert := .ok (), updateDomain := .ok (), renewedEventInsert := .ok "e2",
    commitTx := .ok (), nginxReload := .ok () }

/-- A renewal oracle where only the ACME issuance call fails. -/
def renewOracleIssuanceFails : RenewOracle :=
  { renewOracleAllOk with issuance := .error "acme unreachable" }

/-- A renewal oracle where only the renewed-event insert fails. -/
def renewOracleEventFails : RenewOracle :=
  { renewOracleAllOk with renewedEventInsert := .error "boom" }

/-- A delete oracle where every external call succeeds. -/
def deleteOracleAllOk : DeleteOracle :=
  { beginTx := .ok (), getIDByName := .ok "d1", getSubDomains := .ok ["s1"],
    updateDomains := .ok (), getCerts := .ok { id := "c1" }, updateCert := .ok (),
    eventInsert := .ok "e1", commitTx := .ok () }

/-- A delete oracle where only the deleted-event insert fails. -/
def deleteOracleEventFails : DeleteOracle :=
  { deleteOracleAllOk with eventInsert := .error "boom" }

/-- A delete request addressing the domain by name. -/
def deleteReqFix : DeleteDomainReq :=
  { domainID := "", domainName := "example.com", userID := "u1" }

/-- A delete request addressing the domain by id only. -/
def deleteReqByIDFix : DeleteDomainReq :=
  { domainID := "d1", domainName := "", userID := "u1" }

/-- A create oracle where every external call succeeds. -/
def createOracleAllOk : CreateOracle :=
  { existsCheck := .ok false, issuance := .ok certDataFix, saveFiles := .ok certPathsFix,
    beginTx := .ok (), insertDomain := .ok "d1", insertAlt := fun _ => .ok "a1",
    insertCert := .ok "c1", updateStatus := .ok (), commitTx := .ok (),
    eventInsert := .ok "e1" }

/-- A create oracle where only the ACME issuance call fails. -/
def createOracleIssuanceFails : CreateOracle :=
  { createOracleAllOk with issuance := .error "acme unreachable" }

/-- A concrete create request. -/
def createReqFix : CreateDomainReq :=
  { createdBy := "u1", domain := "example.com", altDomains := ["www.example.com"],
    verificationMethod := "dns-01", autoRenew := true,
    nginxContainerName := "", dnsProvider := "cloudflare" }

/-! Theorems. -/

/-- C4: the claim says GET /domains reports totalPages as the ceiling of
totalElements / pageSize.  The code computes (totalElements + page - 1) /
pageSize, mixing the page number into the numerator: at totalElements = 10,
page = 1, pageSize = 3 it reports 3 pages where the ceiling is 4. -/
theorem getDomains_totalPages_bug :
    (getDomainsPageInfo 10 1 3).totalPages = 3 ∧ ceilDivPages 10 3 = 4 := by
  decide

/-- C5: the renewal sweep performs no issuance call and no database write for
a domain whose status is deleted, whose auto-renew flag is off, or whose
certificate expiry is more than 30 days away: the per-domain step is a skip,
so RenewDomainCertificate is never invoked for it. -/
theorem renewSweep_skip_no_effects (clients : List Client) (o : RenewOracle)
    (now : Time) (d : DomainsDTO)
    (h : d.details.status = "deleted" ∨ d.details.autoRenew = false ∨
      now < d.details.certValidTo - renewalWindow) :
    renewSweepStep clients o now d = .skipped ∧
    (renewSweepStep clients o now d).issuanceCalled = false ∧
    (renewSweepStep clients o now d).dbWritesAttempted = [] ∧
    (renewSweepStep clients o now d).dbWritesCommitted = [] := by
  have hs : renewSweepStep clients o now d = .skipped := by
    unfold renewSweepStep
    rcases h with h | h | h
    · simp [h]
    · simp [h]
    · split
      · rfl
      · simp [h]
  exact ⟨hs, by rw [hs]; rfl, by rw [hs]; rfl, by rw [hs]; rfl⟩

/-- Witness for C5 at a concrete deleted domain. -/
theorem renewSweep_skip_no_effects_witness :
    renewSweepStep clientsFix renewOracleAllOk 0 domainDeletedFix = .skipped ∧
    (renewSweepStep clientsFix renewOracleAllOk 0 domainDeletedFix).issuanceCalled = false ∧
    (renewSweepStep clientsFix renewOracleAllOk 0 domainDeletedFix).dbWritesAttempted = [] ∧
    (renewSweepStep clientsFix renewOracleAllOk 0 domainDeletedFix).dbWritesCommitted = [] :=
  renewSweep_skip_no_effects clientsFix renewOracleAllOk 0 domainDeletedFix (Or.inl rfl)

/-- C1: the claim (and the spec) say an issuance failure during Renew leaves a
committed status=update_failed row and a failed Event visible to subsequent
reads.  Evaluating the transcribed code at a concrete failing issuance shows
the update and the event are only issued to the still-open transaction and
the function then returns a non-nil error, so the deferred rollback discards
them: the committed write set is empty and no status change is visible. -/
theorem renew_issuance_failure_rolled_back :
    (RenewDomainCertificate clientsFix renewOracleIssuanceFails 0 domainFix).result
      = .err "failed to create new certificate" ∧
    (RenewDomainCertificate clientsFix renewOracleIssuanceFails 0 domainFix).txWritesAttempted
      = [.updateReq "d1" renewFailedEntity,
         .insertReq (eventEntity "d1" "failed" "Certificate issuance failed"
           "system-renewal")] ∧
    (RenewDomainCertificate clientsFix renewOracleIssuanceFails 0 domainFix).committed
      = [] := by
  decide

/-- C2 counterexample: two Delete runs that differ only in the outcome of the
deleted-Event insert produce different workflow results, so an Event-record
write failure does change the reported outcome. -/
theorem delete_event_failure_flips_result :
    (DeleteDomain clientsFix deleteOracleAllOk 5 deleteReqFix).result = .ok () ∧
    (DeleteDomain clientsFix deleteOracleEventFails 5 deleteReqFix).result
      = .err "error inserting event: failed to write event: boom" := by
  decide

/-- C10: RenewDomainCertificate never checks the error returned by
SelectClientByName, so for a domain whose configured provider name is not
registered and is not the sentinel, the nil handle is dereferenced by the
issuance call and the workflow panics instead of returning an error. -/
theorem renew_unregistered_provider_panics (clients : List Client) (o : RenewOracle)
    (now : Time) (d : DomainsDTO)
    (h1 : d.details.dnsProvider ≠ "no")
    (h2 : ∀ c ∈ clients, c.name ≠ d.details.dnsProvider)
    (h3 : o.beginTx = .ok ()) :
    (RenewDomainCertificate clients o now d).result = .panicked ∧
    (RenewDomainCertificate clients o now d).issuanceCalled = false ∧
    (RenewDomainCertificate clients o now d).committed = [] := by
  have hsel : SelectClientByName clients d.details.dnsProvider = .notFound := by
    unfold SelectClientByName
    rw [if_neg h1]
    have hfind : clients.find? (fun c => c.name = d.details.dnsProvider) = none := by
      rw [List.find?_eq_none]
      intro c hc
      simpa using h2 c hc
    rw [hfind]
  unfold RenewDomainCertificate
  rw [h3, hsel]
  exact ⟨rfl, rfl, rfl⟩

/-- Witness for C10 at a concrete unregistered provider name. -/
theorem renew_unregistered_provider_panics_witness :
    (RenewDomainCertificate clientsFix renewOracleAllOk 0 domainBadProviderFix).result
      = .panicked ∧
    (RenewDomainCertificate clientsFix renewOracleAllOk 0 domainBadProviderFix).issuanceCalled
      = false ∧
    (RenewDomainCertificate clientsFix renewOracleAllOk 0 domainBadProviderFix).committed
      = [] :=
  renew_unregistered_provider_panics clientsFix renewOracleAllOk 0 domainBadProviderFix
    (by decide) (by decide) rfl

/-- C8: on a non-empty registry the sentinel name "no" resolves to the first
registered handle; any other name resolves by exact Name equality to a
registered handle, is complete when a handle with that name is registered,
and yields the not-found error when none is. -/
theorem selectClient_sentinel_and_exact_match (c0 : Client) (cs : List Client)
    (name : String) (hname : name ≠ "no") :
    SelectClientByName (c0 :: cs) "no" = .found c0 ∧
    (∀ c, SelectClientByName (c0 :: cs) name = .found c → c ∈ c0 :: cs ∧ c.name = name) ∧
    ((∃ c ∈ c0 :: cs, c.name = name) →
      ∃ c, SelectClientByName (c0 :: cs) name = .found c ∧ c ∈ c0 :: cs ∧ c.name = name) ∧
    ((∀ c ∈ c0 :: cs, c.name ≠ name) → SelectClientByName (c0 :: cs) name = .notFound) := by
  refine ⟨rfl, ?_, ?_, ?_⟩
  · intro c hc
    unfold SelectClientByName at hc
    rw [if_neg hname] at hc
    cases hfind : (c0 :: cs).find? (fun c => c.name = name) with
    | none => rw [hfind] at hc; exact absurd hc (by simp)
    | some c' =>
      rw [hfind] at hc
      have hcc : c' = c := by
        simpa using hc
      subst hcc
      refine ⟨List.mem_of_find?_eq_some hfind, ?_⟩
      have := List.find?_some hfind
      simpa using this
  · rintro ⟨c, hmem, hcn⟩
    have hsome : ((c0 :: cs).find? (fun c => c.name = name)).isSome := by
      rw [List.find?_isSome]
      exact ⟨c, hmem, by simpa using hcn⟩
    cases hfind : (c0 :: cs).find? (fun c => c.name = name) with
    | none => rw [hfind] at hsome; exact absurd hsome (by simp)
    | some c' =>
      refine ⟨c', ?_, List.mem_of_find?_eq_some hfind, ?_⟩
      · unfold SelectClientByName
        rw [if_neg hname, hfind]
      · have := List.find?_some hfind
        simpa using this
  · intro hnone
    have hfind : (c0 :: cs).find? (fun c => c.name = name) = none := by
      rw [List.find?_eq_none]
      intro c hc
      simpa using hnone c hc
    unfold SelectClientByName
    rw [if_neg hname, hfind]

/-- Witness for C8 on the concrete two-client registry at the name of the
second client. -/
theorem selectClient_sentinel_and_exact_match_witness :
    SelectClientByName clientsFix "no" = .found { name := "cloudflare" } ∧
    (∀ c, SelectClientByName clientsFix "hetzner" = .found c →
      c ∈ clientsFix ∧ c.name = "hetzner") ∧
    ((∃ c ∈ clientsFix, c.name = "hetzner") →
      ∃ c, SelectClientByName clientsFix "hetzner" = .found c ∧
        c ∈ clientsFix ∧ c.name = "hetzner") ∧
    ((∀ c ∈ clientsFix, c.name ≠ "hetzner") →
      SelectClientByName clientsFix "hetzner" = .notFound) :=
  selectClient_sentinel_and_exact_match { name := "cloudflare" } [{ name := "hetzner" }]
    "hetzner" (by decide)

/-- C6: when issuance fails during Create, the workflow aborts with the
issuance error, no transaction is begun and nothing is committed, and exactly
one failed Event with an empty domain id is attempted; it is recorded exactly
when its own insert succeeds, and its failure leaves the result unchanged. -/
theorem create_issuance_failure_no_rows (o : CreateOracle) (clients : List Client)
    (req : CreateDomainReq) (c : Client) (e : String)
    (hx : o.existsCheck = .ok false)
    (hc : SelectClientByName clients req.dnsProvider = .found c)
    (hi : o.issuance = .error e) :
    (CreateDomain o clients req).result = .err ("certificate creation failed: " ++ e) ∧
    (CreateDomain o clients req).issuanceCalled = true ∧
    (CreateDomain o clients req).saveFilesCalled = false ∧
    (CreateDomain o clients req).txWritesAttempted = [] ∧
    (CreateDomain o clients req).committed = [] ∧
    (CreateDomain o clients req).eventWritesAttempted =
      [eventEntity "" "failed" ("Certificate creation failed: " ++ e) req.createdBy] ∧
    (eventEntity "" "failed" ("Certificate creation failed: " ++ e)
      req.createdBy).getString "domain_id" = some "" ∧
    (∀ id, o.eventInsert = .ok id →
      (CreateDomain o clients req).eventsRecorded =
        [eventEntity "" "failed" ("Certificate creation failed: " ++ e) req.createdBy]) ∧
    (∀ msg, o.eventInsert = .error msg → (CreateDomain o clients req).eventsRecorded = []) := by
  unfold CreateDomain
  rw [hx, hc, hi]
  refine ⟨rfl, rfl, rfl, rfl, rfl, rfl, rfl, ?_, ?_⟩
  · intro id hev
    simp [safeEvent, hev]
  · intro msg hev
    simp [safeEvent, hev]

/-- Witness for C6 at a concrete failing issuance. -/
theorem create_issuance_failure_no_rows_witness :
    (CreateDomain createOracleIssuanceFails clientsFix createReqFix).result
      = .err "certificate creation failed: acme unreachable" ∧
    (CreateDomain createOracleIssuanceFails clientsFix createReqFix).committed = [] ∧
    (CreateDomain createOracleIssuanceFails clientsFix createReqFix).eventWritesAttempted
      = [eventEntity "" "failed" "Certificate creation failed: acme unreachable" "u1"] ∧
    (CreateDomain createOracleIssuanceFails clientsFix createReqFix).eventsRecorded
      = [eventEntity "" "failed" "Certificate creation failed: acme unreachable" "u1"] := by
  have h := create_issuance_failure_no_rows createOracleIssuanceFails clientsFix
    createReqFix { name := "cloudflare" } "acme unreachable" rfl (by decide) rfl
  exact ⟨h.1, h.2.2.2.2.1, h.2.2.2.2.2.1, h.2.2.2.2.2.2.2.1 "e1" rfl⟩

/-- The SAN insert loop only reads the insertAlt field of the oracle. -/
theorem insertAlts_congr (o1 o2 : CreateOracle) (h : o1.insertAlt = o2.insertAlt)
    (did cb : String) : ∀ subs : List String,
    insertAlts o1 did cb subs = insertAlts o2 did cb subs
  | [] => rfl
  | s :: rest => by
    simp only [insertAlts, h, insertAlts_congr o1 o2 h did cb rest]

/-- The transactional phase of CreateDomain only reads the four insert and
update fields of the oracle. -/
theorem createTxPhase_congr (o1 o2 : CreateOracle)
    (h1 : o1.insertDomain = o2.insertDomain) (h2 : o1.insertAlt = o2.insertAlt)
    (h3 : o1.insertCert = o2.insertCert) (h4 : o1.updateStatus = o2.updateStatus)
    (req : CreateDomainReq) (cd : CertData) (p : CertificatePaths) :
    createTxPhase o1 req cd p = createTxPhase o2 req cd p := by
  unfold createTxPhase
  simp only [h1, h3, h4, insertAlts_congr o1 o2 h2]

/-- C2 amended: event-write failures are non-fatal only for the best-effort
events written through safeWriteEvent — all of Create, whose result is
independent of the event-insert outcome.  The deleted Event in Delete and the
renewed Event in Renew are inserted inside the workflow transaction, and
their failure fails the workflow and rolls the transaction back. -/
theorem eventWrite_nonfatal_amended (clients : List Client) :
    (∀ (o : CreateOracle) (req : CreateDomainReq) (e1 e2 : Except String String),
      (CreateDomain { o with eventInsert := e1 } clients req).result =
        (CreateDomain { o with eventInsert := e2 } clients req).result) ∧
    (∀ (o : DeleteOracle) (now : Time) (req : DeleteDomainReq) (msg : String),
      o.eventInsert = .error msg →
      (DeleteDomain clients o now req).result ≠ .ok () ∧
        (DeleteDomain clients o now req).committed = []) ∧
    (∀ (o : RenewOracle) (now : Time) (d : DomainsDTO) (msg : String),
      o.renewedEventInsert = .error msg →
      (RenewDomainCertificate clients o now d).result ≠ .ok () ∧
        (RenewDomainCertificate clients o now d).committed = []) := by
  refine ⟨?_, ?_, ?_⟩
  · intro o req e1 e2
    have h1 : ∀ ev, (CreateDomain { o with eventInsert := ev } clients req).result =
        (CreateDomain o clients req).result := by
      intro ev
      unfold CreateDomain
      simp only [createTxPhase_congr { o with eventInsert := ev } o rfl rfl rfl rfl]
      repeat' split
      all_goals rfl
    rw [h1 e1, h1 e2]
  · intro o now req msg h
    constructor
    · unfold DeleteDomain
      repeat' split
      all_goals try (cases o.updateCert <;> simp_all)
    · unfold DeleteDomain
      repeat' split
      all_goals try (cases o.updateCert <;> simp_all)
  · intro o now d msg h
    constructor
    · unfold RenewDomainCertificate
      repeat' split
      all_goals simp_all
    · unfold RenewDomainCertificate
      repeat' split
      all_goals simp_all

/-- Witness for C2 amended at concrete oracles: a Create run is insensitive
to the event outcome, and a Delete run with a failing event insert does not
succeed. -/
theorem eventWrite_nonfatal_amended_witness :
    (CreateDomain { createOracleAllOk with eventInsert := Except.ok "e1" }
        clientsFix createReqFix).result =
      (CreateDomain { createOracleAllOk with eventInsert := Except.error "boom" }
        clientsFix createReqFix).result ∧
    (DeleteDomain clientsFix deleteOracleEventFails 5 deleteReqFix).result ≠ .ok () ∧
    (DeleteDomain clientsFix deleteOracleEventFails 5 deleteReqFix).committed = [] ∧
    (RenewDomainCertificate clientsFix renewOracleEventFails 0 domainFix).result ≠ .ok () ∧
    (RenewDomainCertificate clientsFix renewOracleEventFails 0 domainFix).committed = [] := by
  have h := eventWrite_nonfatal_amended clientsFix
  have hd := h.2.1 deleteOracleEventFails 5 deleteReqFix "boom" rfl
  have hr := h.2.2 renewOracleEventFails 0 domainFix "boom" rfl
  exact ⟨h.1 createOracleAllOk createReqFix (Except.ok "e1") (Except.error "boom"),
    hd.1, hd.2, hr.1, hr.2⟩

/-- Folding map insertion over keys that are distinct and fresh for the
accumulator appends one entry per key, in order. -/
theorem foldl_mapInsert_fresh (v : Entity) :
    ∀ (subs : List String) (m : List (String × Entity)),
      (∀ p ∈ m, p.1 ∉ subs) → subs.Nodup →
      subs.foldl (fun m id => mapInsert m id v) m = m ++ subs.map (fun id => (id, v))
  | [], m, _, _ => by simp
  | s :: rest, m, hm, hnd => by
    simp only [List.foldl_cons]
    have hcond : ¬ (m.any (fun p => p.1 = s) = true) := by
      simp only [List.any_eq_true, decide_eq_true_eq, not_exists]
      intro p hp
      exact hm p hp.1 (by rw [hp.2]; exact List.mem_cons_self s rest)
    have h1 : mapInsert m s v = m ++ [(s, v)] := by
      unfold mapInsert
      rw [if_neg hcond]
    rw [h1, foldl_mapInsert_fresh v rest (m ++ [(s, v)]) ?_ (List.nodup_cons.mp hnd).2]
    · simp
    · intro p hp
      rcases List.mem_append.mp hp with h | h
      · exact fun hc => hm p h (List.mem_cons_of_mem _ hc)
      · rcases List.mem_singleton.mp h with rfl
        exact (List.nodup_cons.mp hnd).1

/-- The delete batch over a fresh domain id and distinct subdomain ids is
the domain entry followed by one entry per subdomain, in order. -/
theorem deleteUpdateMap_eq (domainID userID : String) (now : Time) (subs : List String)
    (hni : domainID ∉ subs) (hnd : subs.Nodup) :
    deleteUpdateMap domainID userID now subs =
      (domainID, deletedDomainEntity userID now)
        :: subs.map (fun id => (id, deletedAltEntity userID now)) := by
  unfold deleteUpdateMap
  rw [foldl_mapInsert_fresh _ subs _ ?_ hnd]
  · simp
  · intro p hp
    rcases List.mem_singleton.mp hp with rfl
    exact hni

/-- C3 counterexample: a concrete successful Delete commits the domain and
subdomain updates with status deleted, but the certificate update entity it
commits carries no status attribute at all, so the certificate row is not
marked with status deleted as the claim states. -/
theorem delete_certificate_update_lacks_status :
    (DeleteDomain clientsFix deleteOracleAllOk 5 deleteReqFix).result = .ok () ∧
    (DeleteDomain clientsFix deleteOracleAllOk 5 deleteReqFix).committed =
      [TxOp.updateOp "d1" (deletedDomainEntity "u1" 5),
       TxOp.updateOp "s1" (deletedAltEntity "u1" 5),
       TxOp.updateOp "c1" (deletedCertEntity "u1" 5),
       TxOp.insertOp "e1" (eventEntity "d1" "deleted"
         "Domain example.com and its certificates deleted" "u1")] ∧
    (deletedCertEntity "u1" 5).getString "status" = none ∧
    (deletedDomainEntity "u1" 5).getString "status" = some "deleted" := by
  decide

/-- C3 amended: a successful Delete commits, in one all-or-nothing
transaction together with the deleted Event, the Domain update and one update
per fetched non-deleted AlternativeDomain — each setting status deleted and
the shared deleted_at timestamp — and, when a certificate row exists, a
certificate update that sets the same deleted_at (and deleted_by, updated_by)
but no status attribute; whenever the run does not succeed, nothing at all is
committed. -/
theorem delete_softdelete_amended (clients : List Client) (o : DeleteOracle)
    (now : Time) (req : DeleteDomainReq) (domainID evId : String)
    (subs : List String) (cert : CertRow)
    (hb : o.beginTx = .ok ())
    (hres : deleteResolveID o req = .ok domainID)
    (hsubs : o.getSubDomains = .ok subs)
    (hupd : o.updateDomains = .ok ())
    (hgc : o.getCerts = .ok cert)
    (hcu : cert.id ≠ "" → o.updateCert = .ok ())
    (hev : o.eventInsert = .ok evId)
    (hco : o.commitTx = .ok ())
    (hnd : subs.Nodup) (hni : domainID ∉ subs) :
    (DeleteDomain clients o now req).result = .ok () ∧
    (DeleteDomain clients o now req).committed =
      TxOp.updateOp domainID (deletedDomainEntity req.userID now)
        :: subs.map (fun id => TxOp.updateOp id (deletedAltEntity req.userID now))
        ++ (if cert.id ≠ "" then
              [TxOp.updateOp cert.id (deletedCertEntity req.userID now)] else [])
        ++ [TxOp.insertOp evId (eventEntity domainID "deleted"
             ("Domain " ++ req.domainName ++ " and its certificates deleted") req.userID)] ∧
    (deletedDomainEntity req.userID now).getString "status" = some "deleted" ∧
    (deletedAltEntity req.userID now).getString "status" = some "deleted" ∧
    (deletedCertEntity req.userID now).getString "status" = none ∧
    (deletedDomainEntity req.userID now).getTime "deleted_at" = some now ∧
    (deletedAltEntity req.userID now).getTime "deleted_at" = some now ∧
    (deletedCertEntity req.userID now).getTime "deleted_at" = some now ∧
    (∀ (o2 : DeleteOracle) (now2 : Time) (req2 : DeleteDomainReq),
      (DeleteDomain clients o2 now2 req2).result ≠ .ok () →
      (DeleteDomain clients o2 now2 req2).committed = []) := by
  have hbatch := deleteUpdateMap_eq domainID req.userID now subs hni hnd
  have hrb : ∀ (o2 : DeleteOracle) (now2 : Time) (req2 : DeleteDomainReq),
      (DeleteDomain clients o2 now2 req2).result ≠ .ok () →
      (DeleteDomain clients o2 now2 req2).committed = [] := by
    intro o2 now2 req2
    unfold DeleteDomain
    repeat' split
    all_goals intro h
    all_goals try rfl
    all_goals try (exact absurd rfl h)
    all_goals cases hx : o2.updateCert <;> simp_all
  have hrun : (DeleteDomain clients o now req).result = .ok () ∧
      (DeleteDomain clients o now req).committed =
        TxOp.updateOp domainID (deletedDomainEntity req.userID now)
          :: subs.map (fun id => TxOp.updateOp id (deletedAltEntity req.userID now))
          ++ (if cert.id ≠ "" then
                [TxOp.updateOp cert.id (deletedCertEntity req.userID now)] else [])
          ++ [TxOp.insertOp evId (eventEntity domainID "deleted"
               ("Domain " ++ req.domainName ++ " and its certificates deleted")
               req.userID)] := by
    unfold DeleteDomain
    simp only [hb, hres, hsubs, hupd, hgc, hev, hco, hbatch]
    by_cases hcid : cert.id = ""
    · simp [hcid, List.map_map, Function.comp]
    · simp [hcid, hcu hcid, List.map_map, Function.comp]
  exact ⟨hrun.1, hrun.2, rfl, rfl, rfl, rfl, rfl, rfl, hrb⟩

/-- Witness for C3 amended at a concrete successful delete of a domain with
one subdomain and a certificate row. -/
theorem delete_softdelete_amended_witness :
    (DeleteDomain clientsFix deleteOracleAllOk 5 deleteReqFix).result = .ok () ∧
    (DeleteDomain clientsFix deleteOracleAllOk 5 deleteReqFix).committed =
      TxOp.updateOp "d1" (deletedDomainEntity "u1" 5)
        :: ["s1"].map (fun id => TxOp.updateOp id (deletedAltEntity "u1" 5))
        ++ (if ("c1" : String) ≠ "" then
              [TxOp.updateOp "c1" (deletedCertEntity "u1" 5)] else [])
        ++ [TxOp.insertOp "e1" (eventEntity "d1" "deleted"
             ("Domain " ++ "example.com" ++ " and its certificates deleted") "u1")] := by
  have h := delete_softdelete_amended clientsFix deleteOracleAllOk 5 deleteReqFix "d1" "e1"
    ["s1"] { id := "c1" } rfl rfl rfl rfl rfl (fun _ => rfl) rfl rfl
    (by decide) (by decide)
  exact ⟨h.1, h.2.1⟩

/-- C9: a Delete invoked by domain id only (empty domain_name) hands the empty
string to the post-commit artifact cleanup; its removal target joins to the
certificate storage root itself, and every per-domain artifact directory as
well as the ACME account key lie under that target, so the cleanup removes
the whole storage tree rather than one domain subdirectory. -/
theorem delete_by_id_cleanup_targets_storage_root
    (clients : List Client) (o : DeleteOracle) (now : Time) (req : DeleteDomainReq)
    (storageDir : String) (subs : List String) (cert : CertRow) (evId : String)
    (hclients : clients ≠ [])
    (hname : req.domainName = "")
    (hb : o.beginTx = .ok ())
    (hsubs : o.getSubDomains = .ok subs)
    (hupd : o.updateDomains = .ok ())
    (hgc : o.getCerts = .ok cert)
    (hcu : cert.id ≠ "" → o.updateCert = .ok ())
    (hev : o.eventInsert = .ok evId)
    (hco : o.commitTx = .ok ())
    (hsd : storageDir ≠ "") :
    (DeleteDomain clients o now req).cleanupArg = some "" ∧
    deleteCertFilesTarget storageDir "" = storageDir ∧
    deleteCertFilesRemoved storageDir "" true = some storageDir ∧
    underDir storageDir (acmeUserKeyPath storageDir) ∧
    (∀ d : String, underDir storageDir (deleteCertFilesTarget storageDir d)) := by
  refine ⟨?_, ?_, ?_, ?_, ?_⟩
  · have hres : deleteResolveID o req = .ok req.domainID := by
      unfold deleteResolveID
      rw [hname]
      simp
    unfold DeleteDomain
    simp only [hb, hres, hsubs, hupd, hgc, hev, hco]
    cases clients with
    | nil => exact absurd rfl hclients
    | cons c cs =>
      by_cases hcid : cert.id = ""
      · simp [hcid, hname]
      · simp [hcid, hcu hcid, hname]
  · simp [deleteCertFilesTarget, filepathJoin]
  · simp [deleteCertFilesRemoved, deleteCertFilesTarget, filepathJoin]
  · exact Or.inr ⟨"acme_user.key", by simp [acmeUserKeyPath, filepathJoin, hsd]⟩
  · intro d
    by_cases hd : d = ""
    · exact Or.inl (by simp [deleteCertFilesTarget, filepathJoin, hd])
    · exact Or.inr ⟨d, by simp [deleteCertFilesTarget, filepathJoin, hd, hsd]⟩

/-- Witness for C9 at a concrete by-id delete and storage root. -/
theorem delete_by_id_cleanup_targets_storage_root_witness :
    (DeleteDomain clientsFix deleteOracleAllOk 5 deleteReqByIDFix).cleanupArg = some "" ∧
    deleteCertFilesTarget "/etc/certs" "" = "/etc/certs" ∧
    deleteCertFilesRemoved "/etc/certs" "" true = some "/etc/certs" ∧
    underDir "/etc/certs" (acmeUserKeyPath "/etc/certs") ∧
    (∀ d : String, underDir "/etc/certs" (deleteCertFilesTarget "/etc/certs" d)) :=
  delete_by_id_cleanup_targets_storage_root clientsFix deleteOracleAllOk 5 deleteReqByIDFix
    "/etc/certs" ["s1"] { id := "c1" } "e1" (by decide) rfl rfl rfl rfl rfl
    (fun _ => rfl) rfl rfl (by decide)

/-- When every SAN insert succeeds, the loop returns ops that all target the
alternative_domains table. -/
theorem insertAlts_ok_tables (o : CreateOracle) (did cb : String) :
    ∀ subs : List String, (∀ s ∈ subs, ∃ i, o.insertAlt s = .ok i) →
    ∃ ops, insertAlts o did cb subs = .ok ops ∧
      ∀ op ∈ ops, op.table = "alternative_domains"
  | [], _ => ⟨[], rfl, by simp⟩
  | s :: rest, h => by
    obtain ⟨i, hi⟩ := h s (List.mem_cons_self s rest)
    obtain ⟨ops, hops, htab⟩ := insertAlts_ok_tables o did cb rest
      (fun x hx => h x (List.mem_cons_of_mem s hx))
    refine ⟨.insertOp i (createAltEntity did s cb) :: ops, ?_, ?_⟩
    · simp only [insertAlts, hi, hops]
    · intro op hop
      rcases List.mem_cons.mp hop with rfl | hmem
      · rfl
      · exact htab op hmem

/-- A committed write against a table other than domains leaves the domains
table unchanged. -/
theorem applyTxOpDomains_other (db : List DomainRow) (op : TxOp)
    (h : op.table ≠ "domains") : applyTxOpDomains db op = db := by
  cases op with
  | insertOp id e =>
    have h' : e.entityName ≠ "domains" := h
    simp only [applyTxOpDomains, if_neg h']
  | updateOp id e =>
    have h' : e.entityName ≠ "domains" := h
    simp only [applyTxOpDomains, if_neg h']

/-- Folding writes that never target the domains table is the identity on the
domains table. -/
theorem foldl_applyTxOpDomains_other :
    ∀ (ops : List TxOp) (db : List DomainRow),
      (∀ op ∈ ops, op.table ≠ "domains") → ops.foldl applyTxOpDomains db = db
  | [], _, _ => rfl
  | op :: rest, db, h => by
    rw [List.foldl_cons,
      applyTxOpDomains_other db op (h op (List.mem_cons_self op rest)),
      foldl_applyTxOpDomains_other rest db (fun x hx => h x (List.mem_cons_of_mem op hx))]

/-- An update keyed to an id that is fresh for a row list leaves it pointwise
unchanged. -/
theorem map_update_fresh (did : String) (f : DomainRow → DomainRow) :
    ∀ (l : List DomainRow), (∀ r ∈ l, r.id ≠ did) →
      l.map (fun r => if r.id = did then f r else r) = l
  | [], _ => rfl
  | r :: rest, h => by
    rw [List.map_cons, if_neg (h r (List.mem_cons_self r rest)),
      map_update_fresh did f rest (fun x hx => h x (List.mem_cons_of_mem r hx))]

/-- C7: when a non-deleted domain with the requested name already exists, the
duplicate check makes Create return the already-exists error before issuance,
artifact persistence, any transactional write or any event write; so running
Create twice on a fresh name (all external calls succeeding) succeeds once,
fails the second time with the already-exists error and no external effect,
and leaves exactly one domains row with that name. -/
theorem create_twice_already_exists (o : CreateOracle) (clients : List Client)
    (req : CreateDomainReq) (db : List DomainRow) (c : Client) (did certId : String)
    (cd : CertData) (p : CertificatePaths)
    (hn : ∀ r ∈ db, r.name ≠ req.domain)
    (hid : ∀ r ∈ db, r.id ≠ did)
    (hc : SelectClientByName clients req.dnsProvider = .found c)
    (hi : o.issuance = .ok cd) (hs : o.saveFiles = .ok p)
    (hb : o.beginTx = .ok ()) (hins : o.insertDomain = .ok did)
    (halt : ∀ s ∈ req.altDomains, ∃ i, o.insertAlt s = .ok i)
    (hcert : o.insertCert = .ok certId)
    (hupd : o.updateStatus = .ok ()) (hcom : o.commitTx = .ok ()) :
    (CreateDomainSt o clients db req).1.result = .ok did ∧
    (CreateDomainSt o clients db req).2
      = db ++ [{ id := did, name := req.domain, status := "active" }] ∧
    (CreateDomainSt o clients (CreateDomainSt o clients db req).2 req).1.result
      = .err "domain already exists" ∧
    (CreateDomainSt o clients (CreateDomainSt o clients db req).2 req).1.issuanceCalled
      = false ∧
    (CreateDomainSt o clients (CreateDomainSt o clients db req).2 req).1.saveFilesCalled
      = false ∧
    (CreateDomainSt o clients (CreateDomainSt o clients db req).2 req).1.txWritesAttempted
      = [] ∧
    (CreateDomainSt o clients (CreateDomainSt o clients db req).2 req).1.committed = [] ∧
    (CreateDomainSt o clients (CreateDomainSt o clients db req).2 req).1.eventWritesAttempted
      = [] ∧
    (CreateDomainSt o clients (CreateDomainSt o clients db req).2 req).2
      = (CreateDomainSt o clients db req).2 ∧
    (((CreateDomainSt o clients db req).2).filter
      (fun r => r.name = req.domain)).length = 1 := by
  obtain ⟨altOps, haltOps, htab⟩ :=
    insertAlts_ok_tables o did req.createdBy req.altDomains halt
  have hx1 : ({ o with existsCheck := Except.ok false } : CreateOracle).existsCheck
      = Except.ok false := rfl
  have hi1 : ({ o with existsCheck := Except.ok false } : CreateOracle).issuance
      = Except.ok cd := hi
  have hs1 : ({ o with existsCheck := Except.ok false } : CreateOracle).saveFiles
      = Except.ok p := hs
  have hb1 : ({ o with existsCheck := Except.ok false } : CreateOracle).beginTx
      = Except.ok () := hb
  have hcom1 : ({ o with existsCheck := Except.ok false } : CreateOracle).commitTx
      = Except.ok () := hcom
  have hphase : ∀ (x1 : Except String Bool) (x2 : Except String CertData)
      (x3 : Except String CertificatePaths) (x4 x5 : Except String Unit)
      (x6 : Except String String),
      createTxPhase
        { existsCheck := x1, issuance := x2, saveFiles := x3,
          beginTx := x4, insertDomain := o.insertDomain, insertAlt := o.insertAlt,
          insertCert := o.insertCert, updateStatus := o.updateStatus, commitTx := x5,
          eventInsert := x6 } req cd p =
      (did, Except.ok (TxOp.insertOp did (createDomainEntity req) :: altOps
        ++ [TxOp.insertOp certId (createCertEntity did req.createdBy p cd),
            TxOp.updateOp did (createActiveEntity req.createdBy)])) := by
    intro x1 x2 x3 x4 x5 x6
    rw [createTxPhase_congr
      { existsCheck := x1, issuance := x2, saveFiles := x3, beginTx := x4,
        insertDomain := o.insertDomain, insertAlt := o.insertAlt,
        insertCert := o.insertCert, updateStatus := o.updateStatus, commitTx := x5,
        eventInsert := x6 } o rfl rfl rfl rfl]
    unfold createTxPhase
    simp only [hins, haltOps, hcert, hupd]
  have hkey : (CreateDomain { o with existsCheck := Except.ok false } clients req).result
        = .ok did ∧
      (CreateDomain { o with existsCheck := Except.ok false } clients req).committed =
        TxOp.insertOp did (createDomainEntity req) :: altOps
          ++ [TxOp.insertOp certId (createCertEntity did req.createdBy p cd),
              TxOp.updateOp did (createActiveEntity req.createdBy)] := by
    unfold CreateDomain
    simp [hx1, hc, hi, hs, hb, hphase, hcom]
  have hex : IsDomainExists db req.domain = false := by
    unfold IsDomainExists
    rw [List.any_eq_false]
    intro r hr
    simp [hn r hr]
  have hstep1 : applyTxOpDomains db (TxOp.insertOp did (createDomainEntity req))
      = db ++ [{ id := did, name := req.domain, status := "pending" }] := rfl
  have hstep2 : applyTxOpDomains
      (db ++ [{ id := did, name := req.domain, status := "pending" }])
      (TxOp.updateOp did (createActiveEntity req.createdBy))
      = db ++ [{ id := did, name := req.domain, status := "active" }] := by
    simp only [applyTxOpDomains]
    rw [if_pos (show (createActiveEntity req.createdBy).entityName = "domains" from rfl),
      List.map_append, map_update_fresh did _ db hid]
    simp
    rfl
  have hfold : (TxOp.insertOp did (createDomainEntity req) :: altOps
      ++ [TxOp.insertOp certId (createCertEntity did req.createdBy p cd),
          TxOp.updateOp did (createActiveEntity req.createdBy)]).foldl applyTxOpDomains db
      = db ++ [{ id := did, name := req.domain, status := "active" }] := by
    have ha : List.foldl applyTxOpDomains db
        (TxOp.insertOp did (createDomainEntity req) :: altOps)
        = db ++ [{ id := did, name := req.domain, status := "pending" }] := by
      rw [List.foldl_cons, hstep1,
        foldl_applyTxOpDomains_other altOps _ (fun op hop => by rw [htab op hop]; decide)]
    have hcother : (TxOp.insertOp certId
        (createCertEntity did req.createdBy p cd)).table ≠ "domains" := by
      show ("certificates" : String) ≠ "domains"
      decide
    rw [List.foldl_append, ha, List.foldl_cons,
      applyTxOpDomains_other
        (db ++ [({ id := did, name := req.domain, status := "pending" } : DomainRow)])
        (TxOp.insertOp certId (createCertEntity did req.createdBy p cd)) hcother,
      List.foldl_cons, hstep2, List.foldl_nil]
  have hr1a : (CreateDomainSt o clients db req).1
      = CreateDomain { o with existsCheck := Except.ok false } clients req := by
    unfold CreateDomainSt
    simp only [hex]
  have hr1b : (CreateDomainSt o clients db req).2
      = db ++ [{ id := did, name := req.domain, status := "active" }] := by
    unfold CreateDomainSt
    simp only [hex]
    rw [hkey.2, hfold]
  have hex2 : IsDomainExists
      (db ++ [{ id := did, name := req.domain, status := "active" }]) req.domain = true := by
    unfold IsDomainExists
    rw [List.any_eq_true]
    refine ⟨({ id := did, name := req.domain, status := "active" } : DomainRow),
      by simp, by simp⟩
  have hkey2 : CreateDomain { o with existsCheck := Except.ok true } clients req =
      { result := .err "domain already exists", issuanceCalled := false,
        saveFilesCalled := false, txWritesAttempted := [], committed := [],
        eventWritesAttempted := [], eventsRecorded := [] } := rfl
  have hr2a : (CreateDomainSt o clients
      (db ++ [{ id := did, name := req.domain, status := "active" }]) req).1 =
      { result := .err "domain already exists", issuanceCalled := false,
        saveFilesCalled := false, txWritesAttempted := [], committed := [],
        eventWritesAttempted := [], eventsRecorded := [] } := by
    unfold CreateDomainSt
    simp only [hex2]
    exact hkey2
  have hr2b : (CreateDomainSt o clients
      (db ++ [{ id := did, name := req.domain, status := "active" }]) req).2 =
      db ++ [{ id := did, name := req.domain, status := "active" }] := by
    unfold CreateDomainSt
    simp only [hex2, hkey2]
    rfl
  have h0 : db.filter (fun r => r.name = req.domain) = [] := by
    rw [List.filter_eq_nil_iff]
    intro r hr
    simp [hn r hr]
  have hfilt : ((db ++ [({ id := did, name := req.domain, status := "active" } : DomainRow)]).filter
      (fun r => r.name = req.domain)).length = 1 := by
    rw [List.filter_append, h0]
    simp
  rw [hr1b]
  exact ⟨by rw [hr1a]; exact hkey.1, rfl,
    by rw [hr2a], by rw [hr2a], by rw [hr2a], by rw [hr2a], by rw [hr2a], by rw [hr2a],
    hr2b, hfilt⟩

/-- Witness for C7 at a concrete double create starting from an empty table. -/
theorem create_twice_already_exists_witness :
    (CreateDomainSt createOracleAllOk clientsFix [] createReqFix).1.result = .ok "d1" ∧
    (CreateDomainSt createOracleAllOk clientsFix
      (CreateDomainSt createOracleAllOk clientsFix [] createReqFix).2 createReqFix).1.result
      = .err "domain already exists" ∧
    (((CreateDomainSt createOracleAllOk clientsFix [] createReqFix).2).filter
      (fun r => r.name = "example.com")).length = 1 := by
  have h := create_twice_already_exists createOracleAllOk clientsFix createReqFix []
    { name := "cloudflare" } "d1" "c1" certDataFix certPathsFix
    (by simp) (by simp) (by decide) rfl rfl rfl rfl
    (fun s _ => ⟨"a1", rfl⟩) rfl rfl rfl
  exact ⟨h.1, h.2.2.1, h.2.2.2.2.2.2.2.2.2⟩

end Hephaestus
